import Mathlib

/-!
Verification of the solo-server lerobot orchestration layer.

This development gives a shallow embedding of the port-detection,
calibration-orchestration, config-persistence, camera-discovery and
mode-dispatch functions of `solo_server` (files
`solo_server/utils/lerobot_utils.py`, `solo_server/commands/robots/lerobot.py`,
`solo_server/commands/robots/lerobot/calibration.py`,
`solo_server/commands/robo.py`) and proves the testable properties stated
about them.

Python dictionaries are modelled as insertion-ordered association lists
(`PyDict`), Python values as the inductive `PyVal`, Python truthiness as
`truthy`, and fallible Python code as `Except PyError`.  Interactive
operator input and calls into the external `lerobot` library are modelled
as explicit parameters holding the operator's input strings and the
outcome (normal return or raised exception) of each external call.
-/

namespace SoloServer

/-- Python exception classes that the modelled code can raise or catch.
`ext n` stands for an arbitrary exception raised inside the external
robotics framework (the argument distinguishes different exceptions). -/
inductive PyError where
  | valueError
  | importError
  | typeError
  | attributeError
  | ext (n : Nat)
deriving DecidableEq, Repr

/-- Python values, as far as the modelled code inspects them: `none` is the
Python value `None`, `obj` is a dict modelled as an insertion-ordered
association list. -/
inductive PyVal where
  | none
  | bool (b : Bool)
  | str (s : String)
  | int (n : Int)
  | obj (fields : List (String × PyVal))

/-- A Python dict: an insertion-ordered association list. -/
abbrev PyDict := List (String × PyVal)

namespace PyVal

/-- Python truthiness of a value (`bool(v)`): `None`, `False`, the empty
string, `0` and the empty dict are falsy, everything else is truthy. -/
def truthy : PyVal → Bool
  | .none => false
  | .bool b => b
  | .str s => !s.isEmpty
  | .int n => n != 0
  | .obj fields => !fields.isEmpty

/-- Python `a and b`: returns `a` when `a` is falsy, else `b`. -/
def pyAnd (a b : PyVal) : PyVal := if truthy a then b else a

theorem truthy_pyAnd (a b : PyVal) :
    truthy (pyAnd a b) = (truthy a && truthy b) := by
  unfold pyAnd
  by_cases h : truthy a <;> simp [h]

end PyVal

/-- String membership in a list, written out so that proofs can unfold it. -/
def memb (x : String) : List String → Bool
  | [] => false
  | y :: t => if y = x then true else memb x t

theorem memb_eq_true_iff (x : String) (l : List String) :
    memb x l = true ↔ x ∈ l := by
  induction l with
  | nil => simp [memb]
  | cons y t ih =>
    by_cases h : y = x
    · subst h; simp [memb]
    · simp [memb, h, ih]
      intro hx
      exact absurd hx.symm h

/-- Key lookup in a dict; returns the value of the first matching entry. -/
def dictLookup : PyDict → String → Option PyVal
  | [], _ => Option.none
  | (k', v) :: t, k => if k' = k then some v else dictLookup t k

/-- Python `k in d`. -/
def hasKey (d : PyDict) (k : String) : Bool := (dictLookup d k).isSome

/-- Python `d.get(k)`: the value under `k`, or `None` when absent. -/
def pyGet (d : PyDict) (k : String) : PyVal :=
  match dictLookup d k with
  | some v => v
  | Option.none => PyVal.none

/-- Python `d.get(k, default)`. -/
def pyGetD (d : PyDict) (k : String) (dflt : PyVal) : PyVal :=
  match dictLookup d k with
  | some v => v
  | Option.none => dflt

/-- Python `d[k] = v`: replaces the value in place when the key is present
(keeping its position), otherwise appends the new entry at the end. -/
def dictSet (d : PyDict) (k : String) (v : PyVal) : PyDict :=
  if hasKey d k then d.map (fun p => if p.1 = k then (k, v) else p)
  else d ++ [(k, v)]

/-- Python `d.update(u)`: sets every entry of `u` into `d`, in order. -/
def dictUpdate (d : PyDict) (u : PyDict) : PyDict :=
  u.foldl (fun acc p => dictSet acc p.1 p.2) d

/-- The keys of a dict, in order. -/
def dictKeys (d : PyDict) : List String := d.map Prod.fst

/-- Duplicate-freedom of a key list, as a Boolean. -/
def keysNodup : List String → Bool
  | [] => true
  | k :: t => !memb k t && keysNodup t

/-- Whitespace as stripped by Python `int()` before parsing. -/
def isSpaceChar (c : Char) : Bool :=
  c = ' ' || c = '\t' || c = '\n' || c = '\r'

/-- The numeric value of a decimal digit character, if it is one. -/
def digitVal (c : Char) : Option Nat :=
  if '0' ≤ c ∧ c ≤ '9' then some (c.toNat - '0'.toNat) else Option.none

/-- Parse a non-empty run of decimal digits; the accumulator is `none`
until the first digit has been seen. -/
def parseDigits : List Char → Option Nat → Option Nat
  | [], acc => acc
  | c :: t, acc =>
    match digitVal c, acc with
    | some d, some n => parseDigits t (some (10 * n + d))
    | some d, Option.none => parseDigits t (some d)
    | Option.none, _ => Option.none

/-- Python `int(s)` on the character list of `s`: surrounding whitespace
is ignored, then an optional sign followed by at least one decimal digit
is required. -/
def pyIntChars (cs : List Char) : Option Int :=
  let cs := cs.dropWhile isSpaceChar
  let cs := (cs.reverse.dropWhile isSpaceChar).reverse
  match cs with
  | '-' :: rest => (parseDigits rest Option.none).map (fun n => -(n : Int))
  | '+' :: rest => (parseDigits rest Option.none).map (fun n => (n : Int))
  | rest => (parseDigits rest Option.none).map (fun n => (n : Int))

/-- Python `int(s)`: raises `ValueError` when `s` is not an optionally
signed decimal numeral surrounded by whitespace. -/
def pyInt (s : String) : Except PyError Int :=
  match pyIntChars s.toList with
  | some n => Except.ok n
  | Option.none => Except.error .valueError

/-- Helper of `dedupFirst`: drops elements already seen. -/
def dedupAux (seen : List String) : List String → List String
  | [] => []
  | x :: t => if memb x seen then dedupAux seen t else x :: dedupAux (x :: seen) t

/-- Keep the first occurrence of each element, dropping later duplicates. -/
def dedupFirst (l : List String) : List String := dedupAux [] l

/-- Python `list(set(a) - set(b))`: the elements of `a` that are not in
`b`, without duplicates.  Python iterates the resulting set in an
unspecified order; the model fixes the first-occurrence order of `a`. -/
def setDiff (a b : List String) : List String :=
  dedupFirst (a.filter (fun p => !memb p b))

/-- The operator-visible environment of one `detect_arm_port` call: the
three port snapshots taken by `find_available_ports` (before connecting,
after connecting, and after unplugging) and the strings typed at the two
possible disambiguation prompts. -/
structure DetectEnv where
  portsBefore : List String
  portsAfter : List String
  portsUnplugged : List String
  connectChoice : String
  unplugChoice : String

/-- Shallow embedding of `detect_arm_port`
(`solo_server/utils/lerobot_utils.py` lines 914-999).  Snapshot diffing:
exactly one new port is returned directly; zero new ports with a non-empty
before-snapshot falls back to the unplug differential; multiple candidates
go through a numeric menu whose input is parsed with Python `int`, with an
out-of-range choice silently falling back to the first candidate. -/
def detect_arm_port (env : DetectEnv) : Except PyError (Option String) :=
  let new_ports := setDiff env.portsAfter env.portsBefore
  match new_ports with
  | [port] => Except.ok (some port)
  | [] =>
    if env.portsBefore.length > 0 then
      let missing_ports := setDiff env.portsBefore env.portsUnplugged
      match missing_ports with
      | [port] => Except.ok (some port)
      | [] => Except.ok Option.none
      | p :: rest =>
        match pyInt env.unplugChoice with
        | Except.error e => Except.error e
        | Except.ok choice =>
          if 1 ≤ choice ∧ choice ≤ (p :: rest).length then
            Except.ok (some ((p :: rest).getD (choice - 1).toNat ""))
          else
            Except.ok (some p)
    else
      Except.ok Option.none
  | p :: rest =>
    match pyInt env.connectChoice with
    | Except.error e => Except.error e
    | Except.ok choice =>
      if 1 ≤ choice ∧ choice ≤ (p :: rest).length then
        Except.ok (some ((p :: rest).getD (choice - 1).toNat ""))
      else
        Except.ok (some p)

/-- Tags for the external `lerobot` config classes selected by
`get_robot_config_classes`. -/
inductive ConfigKind where
  | so100Leader
  | so100Follower
  | so101Leader
  | so101Follower
deriving DecidableEq, Repr

/-- Shallow embedding of `get_robot_config_classes`
(`solo_server/utils/lerobot_utils.py` lines 155-165). -/
def get_robot_config_classes (robot_type : String) :
    Option ConfigKind × Option ConfigKind :=
  if robot_type = "so100" then (some .so100Leader, some .so100Follower)
  else if robot_type = "so101" then (some .so101Leader, some .so101Follower)
  else (Option.none, Option.none)

/-- Tags for the `typer.echo` messages emitted by the modelled functions;
each constructor corresponds to one echo call site in the source. -/
inductive Msg where
  | calibratingArm (armType port : String)
  | lerobotNotAvailable
  | unsupportedRobotType (armType robotType : String)
  | startingCalibration (armType : String)
  | followInstructions
  | armCalibrated (armType : String)
  | calibrationFailed (armType : String)
  | settingUpMotors (armType port : String)
  | startingMotorSetup (armType : String)
  | connectMotorsIndividually
  | armPoweredOn
  | motorSetupCompleted (armType : String)
  | motorSetupFailed (armType : String)
  | armsCalibratedSuccess
  | motorsSetupBoth
  | motorsSetupWarn
  | teleopHint
  | calibrationPartiallyCompleted
  | calibrationRetryHint
deriving DecidableEq, Repr

/-- Shallow embedding of `calibrate_arm`
(`solo_server/utils/lerobot_utils.py` lines 1001-1037; the copy in
`solo_server/commands/robots/lerobot/calibration.py` lines 15-46 differs
only by omitting the `LEROBOT_AVAILABLE` guard).  `ext` is the outcome of
the external `calibrate(calibrate_config)` call: `Except.error e` models
that call raising the exception `e`, which the surrounding
`try/except Exception` converts into a printed message and `False`.
Returns the emitted messages and what the caller sees: `Except.ok b` for a
normal return of `b`, `Except.error e` for a propagated exception. -/
def calibrate_arm (lerobotAvailable : Bool) (arm_type port robot_type : String)
    (ext : Except PyError Unit) : List Msg × Except PyError Bool :=
  let m0 := [Msg.calibratingArm arm_type port]
  if lerobotAvailable = false then
    (m0 ++ [.lerobotNotAvailable], Except.ok false)
  else
    match get_robot_config_classes robot_type with
    | (some _, some _) =>
      match ext with
      | Except.ok _ =>
        (m0 ++ [.startingCalibration arm_type, .followInstructions,
                .armCalibrated arm_type], Except.ok true)
      | Except.error _ =>
        (m0 ++ [.startingCalibration arm_type, .followInstructions,
                .calibrationFailed arm_type], Except.ok false)
    | _ =>
      (m0 ++ [.unsupportedRobotType arm_type robot_type], Except.ok false)

/-- Shallow embedding of `setup_motors_for_arm`
(`solo_server/utils/lerobot_utils.py` lines 1095-1137).  `extMake` is the
outcome of `make_device(device_config)` and `extSetup` the outcome of
`device.setup_motors()`; both run inside the `try/except Exception`, so a
raise from either is converted into a printed message and `False`. -/
def setup_motors_for_arm (lerobotAvailable : Bool) (arm_type port robot_type : String)
    (extMake : Except PyError Unit) (extSetup : Except PyError Unit) :
    List Msg × Except PyError Bool :=
  let m0 := [Msg.settingUpMotors arm_type port]
  if lerobotAvailable = false then
    (m0 ++ [.lerobotNotAvailable], Except.ok false)
  else
    match get_robot_config_classes robot_type with
    | (some _, some _) =>
      match extMake with
      | Except.ok _ =>
        match extSetup with
        | Except.ok _ =>
          (m0 ++ [.startingMotorSetup arm_type, .connectMotorsIndividually,
                  .armPoweredOn, .motorSetupCompleted arm_type], Except.ok true)
        | Except.error _ =>
          (m0 ++ [.startingMotorSetup arm_type, .connectMotorsIndividually,
                  .armPoweredOn, .motorSetupFailed arm_type], Except.ok false)
      | Except.error _ =>
        (m0 ++ [.motorSetupFailed arm_type], Except.ok false)
    | _ =>
      (m0 ++ [.unsupportedRobotType arm_type robot_type], Except.ok false)

/-- Shallow embedding of `check_calibration_success`
(`solo_server/utils/lerobot_utils.py` lines 134-153; identical copy in
`solo_server/commands/robots/lerobot/calibration.py` lines 267-287).
Returns the list of emitted messages; the overall-success branch is the
one containing `Msg.armsCalibratedSuccess`. -/
def check_calibration_success (arm_config : PyDict) (setup_motors : Bool) : List Msg :=
  let leader_configured :=
    PyVal.pyAnd (pyGet arm_config "leader_port") (pyGet arm_config "leader_calibrated")
  let follower_configured :=
    PyVal.pyAnd (pyGet arm_config "follower_port") (pyGet arm_config "follower_calibrated")
  if (PyVal.pyAnd leader_configured follower_configured).truthy then
    [Msg.armsCalibratedSuccess]
      ++ (if setup_motors then
            let leader_motors := pyGetD arm_config "leader_motors_setup" (.bool false)
            let follower_motors := pyGetD arm_config "follower_motors_setup" (.bool false)
            if (PyVal.pyAnd leader_motors follower_motors).truthy then
              [Msg.motorsSetupBoth]
            else
              [Msg.motorsSetupWarn]
          else [])
      ++ [Msg.teleopHint]
  else
    [Msg.calibrationPartiallyCompleted, Msg.calibrationRetryHint]

/-- The environment of one `setup_motors_and_calibration` run: the string
typed at the robot-type prompt, the availability of the `lerobot` modules,
the port-detection environments of the two `detect_arm_port` calls, and
the outcomes of the six external-library calls made by the per-arm
sub-steps. -/
structure SetupEnv where
  robotChoice : String
  lerobotAvailable : Bool
  leaderDetect : DetectEnv
  followerDetect : DetectEnv
  leaderMotorsMake : Except PyError Unit
  leaderMotorsRun : Except PyError Unit
  leaderCalib : Except PyError Unit
  followerMotorsMake : Except PyError Unit
  followerMotorsRun : Except PyError Unit
  followerCalib : Except PyError Unit

/-- Shallow embedding of `setup_motors_and_calibration`
(`solo_server/utils/lerobot_utils.py` lines 1191-1257; the copy in
`solo_server/commands/robots/lerobot/calibration.py` lines 175-241 is
behaviourally identical here).  Mirrors the early returns taken when
`detect_arm_port` yields no (or an empty) port for an arm. -/
def setup_motors_and_calibration (env : SetupEnv) : Except PyError PyDict :=
  match pyInt env.robotChoice with
  | Except.error e => Except.error e
  | Except.ok robot_choice =>
    let robot_type := if robot_choice = 1 then "so100" else "so101"
    let config := dictSet [] "robot_type" (.str robot_type)
    match detect_arm_port env.leaderDetect with
    | Except.error e => Except.error e
    | Except.ok Option.none => Except.ok config
    | Except.ok (some lp) =>
      if lp.isEmpty then Except.ok config
      else
        let config := dictSet config "leader_port" (.str lp)
        match (setup_motors_for_arm env.lerobotAvailable "leader" lp robot_type
            env.leaderMotorsMake env.leaderMotorsRun).2 with
        | Except.error e => Except.error e
        | Except.ok leader_motors_ok =>
          let config := dictSet config "leader_motors_setup" (.bool leader_motors_ok)
          match (calibrate_arm env.lerobotAvailable "leader" lp robot_type
              env.leaderCalib).2 with
          | Except.error e => Except.error e
          | Except.ok leader_cal =>
            let config := dictSet config "leader_calibrated" (.bool leader_cal)
            match detect_arm_port env.followerDetect with
            | Except.error e => Except.error e
            | Except.ok Option.none => Except.ok config
            | Except.ok (some fp) =>
              if fp.isEmpty then Except.ok config
              else
                let config := dictSet config "follower_port" (.str fp)
                match (setup_motors_for_arm env.lerobotAvailable "follower" fp robot_type
                    env.followerMotorsMake env.followerMotorsRun).2 with
                | Except.error e => Except.error e
                | Except.ok follower_motors_ok =>
                  let config := dictSet config "follower_motors_setup" (.bool follower_motors_ok)
                  match (calibrate_arm env.lerobotAvailable "follower" fp robot_type
                      env.followerCalib).2 with
                  | Except.error e => Except.error e
                  | Except.ok follower_cal =>
                    Except.ok (dictSet config "follower_calibrated" (.bool follower_cal))

/-- The mode chosen by the lerobot dispatcher. -/
inductive LerobotMode where
  | notInstalled
  | recording
  | teleoperation
  | calibrationOnly
  | fullSetup
deriving DecidableEq, Repr

/-- Shallow embedding of the dispatch in `handle_lerobot`
(`solo_server/commands/robots/lerobot.py` lines 17-38): after the
`import lerobot` guard, an if/elif chain over the `record`, `teleop` and
`calibrate` flags with full sequential setup as the fallthrough. -/
def handle_lerobot (lerobotInstalled calibrate teleop record : Bool) : LerobotMode :=
  if lerobotInstalled = false then .notInstalled
  else if record then .recording
  else if teleop then .teleoperation
  else if calibrate then .calibrationOnly
  else .fullSetup

/-- The mode selection as worded by the spec, for comparison with
`handle_lerobot`: recording when `record` is set, else teleoperation when
`teleop` is set, else calibration when `calibrate` is set, else full
sequential setup; no combination is rejected and lower-priority set flags
(including `train` and `inference`) are ignored. -/
def dispatchSpec (calibrate teleop record train inference : Bool) : LerobotMode :=
  if record then .recording
  else if teleop then .teleoperation
  else if calibrate then .calibrationOnly
  else
    have _ := train
    have _ := inference
    .fullSetup

/-- Shallow embedding of `save_lerobot_config`
(`solo_server/utils/lerobot_utils.py` lines 75-91).  Returns the config
dict after the merge; the file written at `CONFIG_PATH` is exactly the
JSON serialization of this dict, and the in-memory `config` is the same
object.  A non-dict value under `lerobot` makes `.update` raise
`AttributeError`; a non-dict value under `server` makes the item
assignment raise `TypeError`. -/
def save_lerobot_config (config arm_config : PyDict) : Except PyError PyDict :=
  let c0 := if hasKey config "lerobot" then config
            else dictSet config "lerobot" (.obj [])
  match dictLookup c0 "lerobot" with
  | some (.obj d) =>
    let c1 := dictSet c0 "lerobot" (.obj (dictUpdate d arm_config))
    let c2 := if hasKey c1 "server" then c1
              else dictSet c1 "server" (.obj [])
    match dictLookup c2 "server" with
    | some (.obj s) =>
      Except.ok (dictSet c2 "server" (.obj (dictSet s "type" (.str "lerobot"))))
    | some _ => Except.error .typeError
    | Option.none => Except.error .typeError
  | some _ => Except.error .attributeError
  | Option.none => Except.error .attributeError

/-- Shallow embedding of `validate_lerobot_config`
(`solo_server/utils/lerobot_utils.py` lines 45-57).  The five `.get`
calls on `lerobot_config` all raise `AttributeError` when the value under
`lerobot` is not a dict, so that case is matched once up front. -/
def validate_lerobot_config (config : PyDict) :
    Except PyError (PyVal × PyVal × PyVal × PyVal × PyVal) :=
  match pyGetD config "lerobot" (.obj []) with
  | .obj lerobot_config =>
    Except.ok (pyGet lerobot_config "leader_port",
      pyGet lerobot_config "follower_port",
      pyGetD lerobot_config "leader_calibrated" (.bool false),
      pyGetD lerobot_config "follower_calibrated" (.bool false),
      pyGetD lerobot_config "robot_type" (.str "so100"))
  | _ => Except.error .attributeError

/-- The gate at the top of `recording_mode`
(`solo_server/utils/lerobot_utils.py` lines 415-424): `Except.ok true`
means the function proceeds past the calibration check;
`Except.ok false` means it prints the calibration error and returns. -/
def recording_mode_gate (config : PyDict) : Except PyError Bool :=
  match validate_lerobot_config config with
  | Except.error e => Except.error e
  | Except.ok (leader_port, follower_port, leader_calibrated, follower_calibrated, _) =>
    Except.ok (PyVal.truthy (PyVal.pyAnd (PyVal.pyAnd (PyVal.pyAnd leader_port follower_port)
      leader_calibrated) follower_calibrated))

/-- The follower gate at the top of `inference_mode`
(`solo_server/utils/lerobot_utils.py` lines 531-541): `Except.ok false`
means the function prints the calibration error and returns. -/
def inference_mode_follower_gate (config : PyDict) : Except PyError Bool :=
  match validate_lerobot_config config with
  | Except.error e => Except.error e
  | Except.ok (_, follower_port, _, follower_calibrated, _) =>
    Except.ok (PyVal.truthy (PyVal.pyAnd follower_port follower_calibrated))

/-- The leader-availability check of `inference_mode`
(`solo_server/utils/lerobot_utils.py` lines 547-557): `Except.ok false`
means the leader arm is treated as not configured and teleoperation during
inference is never offered. -/
def inference_mode_leader_gate (config : PyDict) : Except PyError Bool :=
  match validate_lerobot_config config with
  | Except.error e => Except.error e
  | Except.ok (leader_port, _, leader_calibrated, _, _) =>
    Except.ok (PyVal.truthy (PyVal.pyAnd leader_port leader_calibrated))

/-- The gate of `teleop_mode`
(`solo_server/commands/robots/lerobot.py` lines 40-72): `Except.ok true`
means teleoperation is started; `Except.ok false` means the
arms-not-calibrated error branch is taken. -/
def teleop_mode_gate (config : PyDict) : Except PyError Bool :=
  match pyGetD config "lerobot" (.obj []) with
  | .obj lerobot_config =>
    let leader_port := pyGet lerobot_config "leader_port"
    let follower_port := pyGet lerobot_config "follower_port"
    let leader_calibrated := pyGetD lerobot_config "leader_calibrated" (.bool false)
    let follower_calibrated := pyGetD lerobot_config "follower_calibrated" (.bool false)
    Except.ok (PyVal.truthy (PyVal.pyAnd (PyVal.pyAnd (PyVal.pyAnd leader_port follower_port)
      leader_calibrated) follower_calibrated))
  | _ => Except.error .attributeError

/-- The behaviour of one camera backend during `find_cameras_by_type`: the
outcome of the backend library import and the outcome of
`camera_class.find_cameras()` (each may raise). -/
structure CamBackendEnv where
  importResult : Except PyError Unit
  findResult : Except PyError (List PyDict)

/-- Shallow embedding of `find_cameras_by_type`
(`solo_server/utils/lerobot_utils.py` lines 1259-1299).  For the
RealSense and OpenCV backends an inner `try` converts an `ImportError` or
any other exception into an empty list; the outer
`except ImportError` / `except Exception` does the same for any other
backend name. -/
def find_cameras_by_type (camera_type_name : String) (env : CamBackendEnv) :
    List PyDict :=
  let body : Except PyError (List PyDict) :=
    if camera_type_name = "RealSense" then
      match env.importResult with
      | Except.error _ => Except.ok []
      | Except.ok _ =>
        match env.findResult with
        | Except.ok cameras => Except.ok cameras
        | Except.error _ => Except.ok []
    else if camera_type_name = "OpenCV" then
      match env.importResult with
      | Except.error _ => Except.ok []
      | Except.ok _ =>
        match env.findResult with
        | Except.ok cameras => Except.ok cameras
        | Except.error _ => Except.ok []
    else
      env.findResult
  match body with
  | Except.ok cameras => cameras
  | Except.error _ => []

/-- Shallow embedding of `find_available_cameras`
(`solo_server/utils/lerobot_utils.py` lines 1301-1320): OpenCV cameras
first, then RealSense cameras, empty when the camera modules were not
importable at module load. -/
def find_available_cameras (camerasAvailable : Bool)
    (opencvEnv realsenseEnv : CamBackendEnv) : List PyDict :=
  if camerasAvailable = false then []
  else
    find_cameras_by_type "OpenCV" opencvEnv
      ++ find_cameras_by_type "RealSense" realsenseEnv

/-! Lemmas about the dictionary model. -/

theorem dictLookup_cons (k1 : String) (v1 : PyVal) (t : PyDict) (k : String) :
    dictLookup ((k1, v1) :: t) k = if k1 = k then some v1 else dictLookup t k := rfl

theorem memb_cons (k k1 : String) (t : List String) :
    memb k (k1 :: t) = if k1 = k then true else memb k t := rfl

theorem dictKeys_cons (k1 : String) (v1 : PyVal) (t : PyDict) :
    dictKeys ((k1, v1) :: t) = k1 :: dictKeys t := rfl

theorem hasKey_cons_of_ne (k1 : String) (v1 : PyVal) (t : PyDict) (k : String)
    (h : ¬(k1 = k)) : hasKey ((k1, v1) :: t) k = hasKey t k := by
  simp [hasKey, dictLookup_cons, h]

theorem hasKey_of_mem (d : PyDict) (p : String × PyVal) (k : String)
    (hp : p ∈ d) (hk : p.1 = k) : hasKey d k = true := by
  induction d with
  | nil => simp at hp
  | cons q t ih =>
    rcases List.mem_cons.mp hp with h1 | h1
    · rcases q with ⟨q1, q2⟩
      have : q1 = k := by rw [h1] at hk; exact hk
      simp [hasKey, dictLookup_cons, this]
    · rcases q with ⟨q1, q2⟩
      by_cases hq : q1 = k
      · simp [hasKey, dictLookup_cons, hq]
      · rw [hasKey_cons_of_ne q1 q2 t k hq]
        exact ih h1

theorem lookup_setReplace_self (d : PyDict) (k : String) (v : PyVal)
    (h : hasKey d k = true) :
    dictLookup (d.map (fun p => if p.1 = k then (k, v) else p)) k = some v := by
  induction d with
  | nil => simp [hasKey, dictLookup] at h
  | cons p t ih =>
    rcases p with ⟨k1, v1⟩
    by_cases hp : k1 = k
    · subst hp
      simp [dictLookup_cons]
    · have h' : hasKey t k = true := by
        rw [hasKey_cons_of_ne k1 v1 t k hp] at h
        exact h
      simp only [List.map_cons]
      simp [dictLookup_cons, hp, ih h']

theorem lookup_append_single (d : PyDict) (k : String) (v : PyVal)
    (h : hasKey d k = false) :
    dictLookup (d ++ [(k, v)]) k = some v := by
  induction d with
  | nil => simp [dictLookup_cons, dictLookup]
  | cons p t ih =>
    rcases p with ⟨k1, v1⟩
    have hp : ¬(k1 = k) := by
      intro hk
      subst hk
      simp [hasKey, dictLookup_cons] at h
    have h' : hasKey t k = false := by
      rw [hasKey_cons_of_ne k1 v1 t k hp] at h
      exact h
    simp [dictLookup_cons, hp, ih h']

theorem lookup_setReplace_ne (d : PyDict) (k k' : String) (v : PyVal)
    (h : ¬(k' = k)) :
    dictLookup (d.map (fun p => if p.1 = k' then (k', v) else p)) k
      = dictLookup d k := by
  induction d with
  | nil => rfl
  | cons p t ih =>
    rcases p with ⟨k1, v1⟩
    by_cases hp : k1 = k'
    · subst hp
      simp [dictLookup_cons, h, ih]
    · simp [dictLookup_cons, hp, ih]

theorem lookup_append_ne (d : PyDict) (k k' : String) (v : PyVal)
    (h : ¬(k' = k)) :
    dictLookup (d ++ [(k', v)]) k = dictLookup d k := by
  induction d with
  | nil => simp [dictLookup, dictLookup_cons, h]
  | cons p t ih =>
    rcases p with ⟨k1, v1⟩
    simp [dictLookup_cons, ih]

theorem dictLookup_dictSet_self (d : PyDict) (k : String) (v : PyVal) :
    dictLookup (dictSet d k v) k = some v := by
  unfold dictSet
  cases h : hasKey d k
  · simp only [Bool.false_eq_true, if_false]
    exact lookup_append_single d k v h
  · simp only [if_true]
    exact lookup_setReplace_self d k v h

theorem dictLookup_dictSet_ne (d : PyDict) (k k' : String) (v : PyVal)
    (h : ¬(k' = k)) : dictLookup (dictSet d k' v) k = dictLookup d k := by
  unfold dictSet
  cases hk : hasKey d k'
  · simp only [Bool.false_eq_true, if_false]
    exact lookup_append_ne d k k' v h
  · simp only [if_true]
    exact lookup_setReplace_ne d k k' v h

theorem hasKey_dictSet_self (d : PyDict) (k : String) (v : PyVal) :
    hasKey (dictSet d k v) k = true := by
  simp [hasKey, dictLookup_dictSet_self]

theorem hasKey_dictSet_mono (d : PyDict) (k k' : String) (v : PyVal)
    (h : hasKey d k = true) : hasKey (dictSet d k' v) k = true := by
  by_cases hk : k' = k
  · subst hk
    exact hasKey_dictSet_self d k' v
  · rw [hasKey, dictLookup_dictSet_ne d k k' v hk]
    exact h

/-- Every entry of a dict stored under key `k` holds the value `v`. -/
def allEqAt (d : PyDict) (k : String) (v : PyVal) : Prop :=
  ∀ p ∈ d, p.1 = k → p.2 = v

theorem allEqAt_dictSet_self (d : PyDict) (k : String) (v : PyVal) :
    allEqAt (dictSet d k v) k v := by
  unfold dictSet allEqAt
  cases hk : hasKey d k
  · simp only [Bool.false_eq_true, if_false]
    intro p hp h1
    rcases List.mem_append.mp hp with hp1 | hp1
    · have := hasKey_of_mem d p k hp1 h1
      rw [this] at hk
      cases hk
    · simp at hp1
      rw [hp1]
  · simp only [if_true]
    intro p hp h1
    rcases List.mem_map.mp hp with ⟨q, _, hfq⟩
    by_cases hq1 : q.1 = k
    · rw [if_pos hq1] at hfq
      rw [← hfq]
    · rw [if_neg hq1] at hfq
      rw [← hfq] at h1
      exact absurd h1 hq1

theorem allEqAt_dictSet_ne (d : PyDict) (k k' : String) (v v' : PyVal)
    (h : ¬(k' = k)) (ha : allEqAt d k v) : allEqAt (dictSet d k' v') k v := by
  unfold dictSet
  cases hk : hasKey d k'
  · simp only [Bool.false_eq_true, if_false]
    intro p hp h1
    rcases List.mem_append.mp hp with hp1 | hp1
    · exact ha p hp1 h1
    · simp at hp1
      rw [hp1] at h1
      exact absurd h1 h
  · simp only [if_true]
    intro p hp h1
    rcases List.mem_map.mp hp with ⟨q, hq, hfq⟩
    by_cases hq1 : q.1 = k'
    · rw [if_pos hq1] at hfq
      rw [← hfq] at h1
      exact absurd h1 h
    · rw [if_neg hq1] at hfq
      rw [← hfq] at h1 ⊢
      exact ha q hq h1

theorem map_id_of_allEqAt (d : PyDict) (k : String) (v : PyVal)
    (ha : allEqAt d k v) :
    d.map (fun p => if p.1 = k then (k, v) else p) = d := by
  induction d with
  | nil => rfl
  | cons p t ih =>
    have hhead : (if p.1 = k then (k, v) else p) = p := by
      by_cases h1 : p.1 = k
      · have h2 := ha p (List.mem_cons_self p t) h1
        rw [if_pos h1]
        rcases p with ⟨k1, v1⟩
        simp only at h1 h2
        rw [h1, h2]
      · rw [if_neg h1]
    have ht : allEqAt t k v := fun q hq => ha q (List.mem_cons_of_mem p hq)
    rw [List.map_cons, hhead, ih ht]

theorem dictSet_eq_self (d : PyDict) (k : String) (v : PyVal)
    (hk : hasKey d k = true) (ha : allEqAt d k v) : dictSet d k v = d := by
  unfold dictSet
  rw [hk]
  simp only [if_true]
  exact map_id_of_allEqAt d k v ha

theorem dictSet_dictSet_same (d : PyDict) (k : String) (v : PyVal) :
    dictSet (dictSet d k v) k v = dictSet d k v :=
  dictSet_eq_self _ _ _ (hasKey_dictSet_self d k v) (allEqAt_dictSet_self d k v)

theorem dictUpdate_cons (d : PyDict) (k : String) (v : PyVal) (t : PyDict) :
    dictUpdate d ((k, v) :: t) = dictUpdate (dictSet d k v) t := rfl

theorem dictLookup_dictUpdate_not_mem (u : PyDict) (d : PyDict) (k : String)
    (h : memb k (dictKeys u) = false) :
    dictLookup (dictUpdate d u) k = dictLookup d k := by
  induction u generalizing d with
  | nil => rfl
  | cons p t ih =>
    rcases p with ⟨k', v⟩
    rw [dictKeys_cons, memb_cons] at h
    have h1 : ¬(k' = k) := by
      intro he
      rw [if_pos he] at h
      cases h
    rw [if_neg h1] at h
    rw [dictUpdate_cons, ih _ h, dictLookup_dictSet_ne d k k' v h1]

theorem allEqAt_dictUpdate (u : PyDict) (d : PyDict) (k : String) (v : PyVal)
    (h : memb k (dictKeys u) = false) (ha : allEqAt d k v) :
    allEqAt (dictUpdate d u) k v := by
  induction u generalizing d with
  | nil => exact ha
  | cons p t ih =>
    rcases p with ⟨k', v'⟩
    rw [dictKeys_cons, memb_cons] at h
    have h1 : ¬(k' = k) := by
      intro he
      rw [if_pos he] at h
      cases h
    rw [if_neg h1] at h
    rw [dictUpdate_cons]
    exact ih _ h (allEqAt_dictSet_ne d k k' v v' h1 ha)

theorem dictUpdate_idem (u : PyDict) (d : PyDict)
    (h : keysNodup (dictKeys u) = true) :
    dictUpdate (dictUpdate d u) u = dictUpdate d u := by
  induction u generalizing d with
  | nil => rfl
  | cons p t ih =>
    rcases p with ⟨k, v⟩
    have hknd : keysNodup (dictKeys ((k, v) :: t))
        = (!memb k (dictKeys t) && keysNodup (dictKeys t)) := rfl
    rw [hknd] at h
    have h1 : memb k (dictKeys t) = false := by
      have := ((Bool.and_eq_true _ _).mp h).1
      simpa using this
    have h2 : keysNodup (dictKeys t) = true := ((Bool.and_eq_true _ _).mp h).2
    have hset : dictSet (dictUpdate (dictSet d k v) t) k v
        = dictUpdate (dictSet d k v) t := by
      apply dictSet_eq_self
      · rw [hasKey, dictLookup_dictUpdate_not_mem t (dictSet d k v) k h1,
          dictLookup_dictSet_self]
        rfl
      · exact allEqAt_dictUpdate t (dictSet d k v) k v h1
          (allEqAt_dictSet_self d k v)
    rw [dictUpdate_cons, dictUpdate_cons, hset, ih _ h2]

/-! Lemmas about snapshot diffing. -/

theorem dedupAux_nil_of_all_seen (seen : List String) (l : List String)
    (h : ∀ x ∈ l, memb x seen = true) : dedupAux seen l = [] := by
  induction l with
  | nil => rfl
  | cons x t ih =>
    have hx := h x (List.mem_cons_self x t)
    simp only [dedupAux, hx, if_true]
    exact ih (fun y hy => h y (List.mem_cons_of_mem x hy))

theorem dedupFirst_all_eq (l : List String) (p : String)
    (hne : l ≠ []) (hall : ∀ x ∈ l, x = p) : dedupFirst l = [p] := by
  cases l with
  | nil => exact absurd rfl hne
  | cons x t =>
    have hx : x = p := hall x (List.mem_cons_self x t)
    subst hx
    unfold dedupFirst
    have hm : memb x ([] : List String) = false := rfl
    simp only [dedupAux, hm, Bool.false_eq_true, if_false]
    have ht : dedupAux [x] t = [] := by
      apply dedupAux_nil_of_all_seen
      intro y hy
      have hyx : y = x := hall y (List.mem_cons_of_mem x hy)
      simp [memb, hyx]
    rw [ht]

theorem setDiff_eq_single (after before : List String) (p : String)
    (hmem : p ∈ after) (hnot : p ∉ before)
    (huniq : ∀ q ∈ after, q ∉ before → q = p) :
    setDiff after before = [p] := by
  unfold setDiff
  have hpf : p ∈ after.filter (fun x => !memb x before) := by
    apply List.mem_filter.mpr
    refine ⟨hmem, ?_⟩
    have hmb : memb p before = false := by
      cases h : memb p before
      · rfl
      · exact absurd ((memb_eq_true_iff p before).mp h) hnot
    simp [hmb]
  apply dedupFirst_all_eq
  · exact List.ne_nil_of_mem hpf
  · intro x hx
    have h1 := List.mem_filter.mp hx
    apply huniq x h1.1
    intro hxb
    have h2 : memb x before = false := by simpa using h1.2
    rw [(memb_eq_true_iff x before).mpr hxb] at h2
    cases h2

theorem isOk_if {α : Type} (P : Prop) [Decidable P] (a b : α) :
    (if P then Except.ok a else Except.ok b : Except PyError α).isOk = true := by
  by_cases h : P <;> simp [h, Except.isOk, Except.toBool]

theorem exists_ok_of_isOk {α : Type} (x : Except PyError α)
    (h : x.isOk = true) : ∃ a, x = Except.ok a := by
  cases x with
  | ok a => exact ⟨a, rfl⟩
  | error e => simp [Except.isOk, Except.toBool] at h

/-! Claim theorems for the port detector. -/

/-- C2: for every pre-existing port set and every post-connection snapshot
containing exactly one port not in it, `detect_arm_port` returns that one
new port. -/
theorem detect_arm_port_single_new (env : DetectEnv) (p : String)
    (hmem : p ∈ env.portsAfter) (hnot : p ∉ env.portsBefore)
    (huniq : ∀ q ∈ env.portsAfter, q ∉ env.portsBefore → q = p) :
    detect_arm_port env = Except.ok (some p) := by
  have hdiff := setDiff_eq_single env.portsAfter env.portsBefore p hmem hnot huniq
  unfold detect_arm_port
  rw [hdiff]

/-- Witness for C2 at a concrete environment: no pre-existing ports and a
single newly appearing port. -/
theorem detect_arm_port_single_new_witness :
    detect_arm_port (DetectEnv.mk [] ["/dev/ttyACM0"] [] "1" "1")
      = Except.ok (some "/dev/ttyACM0") :=
  detect_arm_port_single_new (DetectEnv.mk [] ["/dev/ttyACM0"] [] "1" "1")
    "/dev/ttyACM0" (by simp) (by simp)
    (by intro q hq _; simpa using hq)

/-- C5 counterexample: with two new ports and the operator typing `x` at
the disambiguation menu, `detect_arm_port` raises `ValueError` (from
`int(Prompt.ask(...))`) instead of returning `None`. -/
theorem detect_arm_port_raises_on_bad_menu_input :
    detect_arm_port (DetectEnv.mk [] ["p1", "p2"] [] "x" "1")
      = Except.error PyError.valueError := by rfl

/-- C5 as amended: `detect_arm_port` never raises provided every
disambiguation-menu input parses as an integer (a non-integer input makes
`int(...)` raise `ValueError`); in particular, with the port set empty
both before and after the connect prompt it returns `None`. -/
theorem detect_arm_port_no_raise_amended (env : DetectEnv)
    (hc : (pyInt env.connectChoice).isOk = true)
    (hu : (pyInt env.unplugChoice).isOk = true) :
    (detect_arm_port env).isOk = true ∧
      (env.portsBefore = [] → env.portsAfter = [] →
        detect_arm_port env = Except.ok Option.none) := by
  obtain ⟨c, hcv⟩ := exists_ok_of_isOk _ hc
  obtain ⟨u, huv⟩ := exists_ok_of_isOk _ hu
  constructor
  · unfold detect_arm_port
    cases hsd : setDiff env.portsAfter env.portsBefore with
    | nil =>
      by_cases hb : env.portsBefore.length > 0
      · simp only [hb, if_true]
        cases hsd2 : setDiff env.portsBefore env.portsUnplugged with
        | nil => simp [Except.isOk, Except.toBool]
        | cons p rest =>
          cases rest with
          | nil => simp [Except.isOk, Except.toBool]
          | cons q r =>
            rw [huv]
            exact isOk_if _ _ _
      · simp [hb, Except.isOk, Except.toBool]
    | cons p rest =>
      cases rest with
      | nil => simp [Except.isOk, Except.toBool]
      | cons q r =>
        rw [hcv]
        exact isOk_if _ _ _
  · intro h1 h2
    have hsd : setDiff env.portsAfter env.portsBefore = [] := by
      rw [h2]; rfl
    unfold detect_arm_port
    rw [hsd, h1]
    rfl

/-- Witness for the amended C5: both menu inputs parse and the port set is
empty before and after, so detection returns `None` without raising. -/
theorem detect_arm_port_no_raise_amended_witness :
    detect_arm_port (DetectEnv.mk [] [] [] "1" "1") = Except.ok Option.none :=
  (detect_arm_port_no_raise_amended (DetectEnv.mk [] [] [] "1" "1")
    (by rfl) (by rfl)).2 rfl rfl

/-- C10: in both disambiguation menus of `detect_arm_port` (multiple new
ports on connect, or multiple ports disappearing on unplug), a numeric
choice outside `1..number-of-candidates` is not re-prompted: the function
returns the first candidate in the list. -/
theorem detect_arm_port_menu_out_of_range :
    (∀ (env : DetectEnv) (p q : String) (rest : List String) (c : Int),
      setDiff env.portsAfter env.portsBefore = p :: q :: rest →
      pyInt env.connectChoice = Except.ok c →
      ¬(1 ≤ c ∧ c ≤ (p :: q :: rest).length) →
      detect_arm_port env = Except.ok (some p))
    ∧ (∀ (env : DetectEnv) (p q : String) (rest : List String) (c : Int),
      setDiff env.portsAfter env.portsBefore = [] →
      env.portsBefore.length > 0 →
      setDiff env.portsBefore env.portsUnplugged = p :: q :: rest →
      pyInt env.unplugChoice = Except.ok c →
      ¬(1 ≤ c ∧ c ≤ (p :: q :: rest).length) →
      detect_arm_port env = Except.ok (some p)) := by
  constructor
  · intro env p q rest c hsd hpi hrange
    unfold detect_arm_port
    rw [hsd]
    simp only [hpi]
    rw [if_neg hrange]
  · intro env p q rest c hsd hlen hsd2 hpi hrange
    unfold detect_arm_port
    rw [hsd]
    simp only [hlen, if_true]
    rw [hsd2]
    simp only [hpi]
    rw [if_neg hrange]

/-- Witness for C10: two new ports, operator types `9`, which is out of
range, and the first candidate is returned. -/
theorem detect_arm_port_menu_out_of_range_witness :
    detect_arm_port (DetectEnv.mk [] ["p1", "p2"] [] "9" "1")
      = Except.ok (some "p1") :=
  detect_arm_port_menu_out_of_range.1 (DetectEnv.mk [] ["p1", "p2"] [] "9" "1")
    "p1" "p2" [] 9 (by rfl) (by rfl) (by decide)

/-! Claim theorems for calibration reporting, mode dispatch and cameras. -/

/-- The arm configuration of the spec's example scenario: leader fully
configured, follower port present but follower calibration flag `False`. -/
def exampleArmConfig : PyDict :=
  [("leader_port", PyVal.str "/dev/ttyACM0"),
   ("leader_calibrated", PyVal.bool true),
   ("follower_port", PyVal.str "/dev/ttyACM1"),
   ("follower_calibrated", PyVal.bool false)]

/-- C3: `check_calibration_success` takes the overall-success branch if
and only if `leader_port`, `leader_calibrated`, `follower_port` and
`follower_calibrated` are all truthy; on the example configuration with
`follower_calibrated = False` it emits exactly the partially-completed
messages, not the success message. -/
theorem check_calibration_success_iff :
    (∀ (arm_config : PyDict) (setup_motors : Bool),
      Msg.armsCalibratedSuccess ∈ check_calibration_success arm_config setup_motors ↔
        ((pyGet arm_config "leader_port").truthy = true ∧
         (pyGet arm_config "leader_calibrated").truthy = true ∧
         (pyGet arm_config "follower_port").truthy = true ∧
         (pyGet arm_config "follower_calibrated").truthy = true))
    ∧ check_calibration_success exampleArmConfig false
        = [Msg.calibrationPartiallyCompleted, Msg.calibrationRetryHint] := by
  constructor
  · intro arm_config setup_motors
    unfold check_calibration_success
    simp only [PyVal.truthy_pyAnd]
    by_cases h1 : (pyGet arm_config "leader_port").truthy = true <;>
      by_cases h2 : (pyGet arm_config "leader_calibrated").truthy = true <;>
        by_cases h3 : (pyGet arm_config "follower_port").truthy = true <;>
          by_cases h4 : (pyGet arm_config "follower_calibrated").truthy = true <;>
            simp [h1, h2, h3, h4]
  · rfl

/-- C4: for every combination of the five CLI flags, the lerobot mode
dispatcher selects exactly one mode by the fixed priority
record, then teleop, then calibrate, then full setup, rejecting no
combination and ignoring lower-priority set flags (`train` and
`inference` never influence the chosen mode). -/
theorem handle_lerobot_dispatch_priority :
    ∀ calibrate teleop record train inference : Bool,
      handle_lerobot true calibrate teleop record
        = dispatchSpec calibrate teleop record train inference := by
  decide

/-- C9: an `ImportError` from either camera backend makes that backend
contribute an empty list rather than propagate; in particular, with the
RealSense import raising `ImportError` and the OpenCV backend finding
exactly one camera, `find_available_cameras` returns a list of length 1. -/
theorem find_available_cameras_import_error
    (opencvEnv realsenseEnv : CamBackendEnv) (cam : PyDict)
    (hrs : realsenseEnv.importResult = Except.error PyError.importError)
    (hcv : opencvEnv.importResult = Except.ok ())
    (hfind : opencvEnv.findResult = Except.ok [cam]) :
    (find_available_cameras true opencvEnv realsenseEnv).length = 1
    ∧ (∀ (name : String) (env : CamBackendEnv),
        (name = "RealSense" ∨ name = "OpenCV") →
        env.importResult = Except.error PyError.importError →
        find_cameras_by_type name env = []) := by
  constructor
  · unfold find_available_cameras find_cameras_by_type
    simp [hrs, hcv, hfind]
  · intro name env hname himp
    unfold find_cameras_by_type
    rcases hname with h | h <;> subst h <;> simp [himp]

/-- A camera record used by the C9 witness. -/
def exampleCamera : PyDict := [("id", PyVal.int 0)]

/-- Witness for C9 at concrete backend outcomes. -/
theorem find_available_cameras_import_error_witness :
    (find_available_cameras true
        (CamBackendEnv.mk (Except.ok ()) (Except.ok [exampleCamera]))
        (CamBackendEnv.mk (Except.error PyError.importError) (Except.ok []))).length = 1
    ∧ find_cameras_by_type "RealSense"
        (CamBackendEnv.mk (Except.error PyError.importError) (Except.ok [])) = [] := by
  refine ⟨?_, ?_⟩
  · exact (find_available_cameras_import_error
      (CamBackendEnv.mk (Except.ok ()) (Except.ok [exampleCamera]))
      (CamBackendEnv.mk (Except.error PyError.importError) (Except.ok []))
      exampleCamera rfl rfl rfl).1
  · exact (find_available_cameras_import_error
      (CamBackendEnv.mk (Except.ok ()) (Except.ok [exampleCamera]))
      (CamBackendEnv.mk (Except.error PyError.importError) (Except.ok []))
      exampleCamera rfl rfl rfl).2 "RealSense"
      (CamBackendEnv.mk (Except.error PyError.importError) (Except.ok []))
      (Or.inl rfl) rfl

/-! Claim theorems for the calibration orchestrator. -/

theorem calibrate_arm_no_raise (avail : Bool) (arm_type port robot_type : String)
    (ext : Except PyError Unit) :
    (calibrate_arm avail arm_type port robot_type ext).2.isOk = true := by
  unfold calibrate_arm
  cases avail
  · simp [Except.isOk, Except.toBool]
  · rcases hg : get_robot_config_classes robot_type with ⟨o1, o2⟩
    cases o1 <;> cases o2 <;> cases ext <;> simp [Except.isOk, Except.toBool]

theorem setup_motors_for_arm_no_raise (avail : Bool)
    (arm_type port robot_type : String) (extMake extSetup : Except PyError Unit) :
    (setup_motors_for_arm avail arm_type port robot_type extMake extSetup).2.isOk
      = true := by
  unfold setup_motors_for_arm
  cases avail
  · simp [Except.isOk, Except.toBool]
  · rcases hg : get_robot_config_classes robot_type with ⟨o1, o2⟩
    cases o1 <;> cases o2 <;> cases extMake <;> cases extSetup <;>
      simp [Except.isOk, Except.toBool]

/-- C8: `calibrate_arm` and `setup_motors_for_arm` never propagate an
exception from the external library: whatever the outcomes of the
external calls, the caller sees a normal boolean return; and when the
external call raises (with the `lerobot` modules available and a
supported robot type, so that the call site is reached), the exception is
caught, a failure message is printed, and `False` is returned. -/
theorem external_exceptions_converted_to_false
    (avail : Bool) (arm_type port robot_type : String)
    (ext extMake extSetup : Except PyError Unit) (e1 e2 e3 : PyError)
    (hk : (get_robot_config_classes robot_type).1.isSome = true ∧
          (get_robot_config_classes robot_type).2.isSome = true) :
    ((calibrate_arm avail arm_type port robot_type ext).2.isOk = true) ∧
    ((setup_motors_for_arm avail arm_type port robot_type extMake extSetup).2.isOk
        = true) ∧
    ((calibrate_arm true arm_type port robot_type (Except.error e1)).2
        = Except.ok false ∧
      Msg.calibrationFailed arm_type
        ∈ (calibrate_arm true arm_type port robot_type (Except.error e1)).1) ∧
    ((setup_motors_for_arm true arm_type port robot_type (Except.error e2) extSetup).2
        = Except.ok false ∧
      Msg.motorSetupFailed arm_type
        ∈ (setup_motors_for_arm true arm_type port robot_type
            (Except.error e2) extSetup).1) ∧
    ((setup_motors_for_arm true arm_type port robot_type (Except.ok ())
        (Except.error e3)).2 = Except.ok false ∧
      Msg.motorSetupFailed arm_type
        ∈ (setup_motors_for_arm true arm_type port robot_type (Except.ok ())
            (Except.error e3)).1) := by
  obtain ⟨a, ha⟩ := Option.isSome_iff_exists.mp hk.1
  obtain ⟨b, hb⟩ := Option.isSome_iff_exists.mp hk.2
  have hgrc : get_robot_config_classes robot_type = (some a, some b) := by
    rcases hg : get_robot_config_classes robot_type with ⟨o1, o2⟩
    rw [hg] at ha hb
    simp only at ha hb
    rw [ha, hb]
  refine ⟨calibrate_arm_no_raise avail arm_type port robot_type ext,
    setup_motors_for_arm_no_raise avail arm_type port robot_type extMake extSetup,
    ?_, ?_, ?_⟩
  · unfold calibrate_arm
    rw [hgrc]
    simp
  · unfold setup_motors_for_arm
    rw [hgrc]
    simp
  · unfold setup_motors_for_arm
    rw [hgrc]
    simp

/-- Witness for C8: a concrete external exception is converted into a
`False` return and a failure message for each of the three raise sites. -/
theorem external_exceptions_converted_to_false_witness :
    ((calibrate_arm true "leader" "/dev/ttyACM0" "so100"
        (Except.error (PyError.ext 7))).2 = Except.ok false ∧
      Msg.calibrationFailed "leader"
        ∈ (calibrate_arm true "leader" "/dev/ttyACM0" "so100"
            (Except.error (PyError.ext 7))).1) ∧
    ((setup_motors_for_arm true "leader" "/dev/ttyACM0" "so100"
        (Except.error (PyError.ext 8)) (Except.ok ())).2 = Except.ok false ∧
      Msg.motorSetupFailed "leader"
        ∈ (setup_motors_for_arm true "leader" "/dev/ttyACM0" "so100"
            (Except.error (PyError.ext 8)) (Except.ok ())).1) := by
  have h := external_exceptions_converted_to_false true "leader" "/dev/ttyACM0"
    "so100" (Except.ok ()) (Except.error (PyError.ext 8)) (Except.ok ())
    (PyError.ext 7) (PyError.ext 8) (PyError.ext 9) (by constructor <;> rfl)
  exact ⟨h.2.2.1, h.2.2.2.1⟩

/-- A `setup_motors_and_calibration` environment in which leader-port
detection fails: no serial ports exist before or after the connect
prompt, so `detect_arm_port` returns `None`. -/
def setupEnvDetectFail : SetupEnv :=
  SetupEnv.mk "1" true (DetectEnv.mk [] [] [] "1" "1") (DetectEnv.mk [] [] [] "1" "1")
    (Except.ok ()) (Except.ok ()) (Except.ok ())
    (Except.ok ()) (Except.ok ()) (Except.ok ())

/-- C1 counterexample: when leader-port detection fails,
`setup_motors_and_calibration` returns early with a dict containing
neither `leader_calibrated` nor `follower_calibrated`, so the returned
dict does not always contain both keys. -/
theorem setup_motors_and_calibration_missing_keys :
    setup_motors_and_calibration setupEnvDetectFail
        = Except.ok [("robot_type", PyVal.str "so100")]
    ∧ hasKey [("robot_type", PyVal.str "so100")] "leader_calibrated" = false
    ∧ hasKey [("robot_type", PyVal.str "so100")] "follower_calibrated" = false :=
  ⟨rfl, rfl, rfl⟩

/-- C1 as amended: provided the robot-type prompt input parses as an
integer and `detect_arm_port` yields a non-empty port for both arms, the
dict returned by `setup_motors_and_calibration` contains both
`leader_calibrated` and `follower_calibrated`, whatever the outcomes
(success, failure, or raised exception) of motor setup and calibration
for either arm; when detection fails for an arm, the function instead
returns early without those keys. -/
theorem setup_motors_and_calibration_keys_amended (env : SetupEnv) (lp fp : String)
    (hrc : (pyInt env.robotChoice).isOk = true)
    (hld : detect_arm_port env.leaderDetect = Except.ok (some lp))
    (hlp : lp.isEmpty = false)
    (hfd : detect_arm_port env.followerDetect = Except.ok (some fp))
    (hfp : fp.isEmpty = false) :
    ∃ cfg, setup_motors_and_calibration env = Except.ok cfg ∧
      hasKey cfg "leader_calibrated" = true ∧
      hasKey cfg "follower_calibrated" = true := by
  obtain ⟨rc, hrcv⟩ := exists_ok_of_isOk _ hrc
  obtain ⟨lmv, hlmv⟩ := exists_ok_of_isOk _
    (setup_motors_for_arm_no_raise env.lerobotAvailable "leader" lp
      (if rc = 1 then "so100" else "so101") env.leaderMotorsMake env.leaderMotorsRun)
  obtain ⟨lcv, hlcv⟩ := exists_ok_of_isOk _
    (calibrate_arm_no_raise env.lerobotAvailable "leader" lp
      (if rc = 1 then "so100" else "so101") env.leaderCalib)
  obtain ⟨fmv, hfmv⟩ := exists_ok_of_isOk _
    (setup_motors_for_arm_no_raise env.lerobotAvailable "follower" fp
      (if rc = 1 then "so100" else "so101") env.followerMotorsMake env.followerMotorsRun)
  obtain ⟨fcv, hfcv⟩ := exists_ok_of_isOk _
    (calibrate_arm_no_raise env.lerobotAvailable "follower" fp
      (if rc = 1 then "so100" else "so101") env.followerCalib)
  unfold setup_motors_and_calibration
  rw [hrcv]
  simp only [hld, hlp, Bool.false_eq_true, if_false, hlmv, hlcv, hfd, hfp, hfmv, hfcv]
  refine ⟨_, rfl, ?_, ?_⟩
  · apply hasKey_dictSet_mono
    apply hasKey_dictSet_mono
    apply hasKey_dictSet_mono
    exact hasKey_dictSet_self _ _ _
  · exact hasKey_dictSet_self _ _ _

/-- Witness for the amended C1: both detections succeed with concrete
ports and the returned dict carries both calibration keys. -/
theorem setup_motors_and_calibration_keys_amended_witness :
    ∃ cfg, setup_motors_and_calibration
        (SetupEnv.mk "1" true (DetectEnv.mk [] ["/dev/ttyACM0"] [] "1" "1")
          (DetectEnv.mk [] ["/dev/ttyACM1"] [] "1" "1")
          (Except.ok ()) (Except.ok ()) (Except.ok ())
          (Except.ok ()) (Except.ok ()) (Except.ok ()))
        = Except.ok cfg ∧
      hasKey cfg "leader_calibrated" = true ∧
      hasKey cfg "follower_calibrated" = true :=
  setup_motors_and_calibration_keys_amended
    (SetupEnv.mk "1" true (DetectEnv.mk [] ["/dev/ttyACM0"] [] "1" "1")
      (DetectEnv.mk [] ["/dev/ttyACM1"] [] "1" "1")
      (Except.ok ()) (Except.ok ()) (Except.ok ())
      (Except.ok ()) (Except.ok ()) (Except.ok ()))
    "/dev/ttyACM0" "/dev/ttyACM1" rfl rfl rfl rfl rfl

/-! Claim theorem for config persistence. -/

/-- C6: `save_lerobot_config` is idempotent: if saving `arm_config` into
`config` succeeds with resulting config (and hence persisted JSON
content) `c1`, saving the same `arm_config` again into `c1` leaves `c1`
unchanged.  The hypothesis that `arm_config` has duplicate-free keys is
automatic for any Python dict. -/
theorem save_lerobot_config_idempotent (config arm_config c1 : PyDict)
    (hnd : keysNodup (dictKeys arm_config) = true)
    (h1 : save_lerobot_config config arm_config = Except.ok c1) :
    save_lerobot_config c1 arm_config = Except.ok c1 := by
  simp only [save_lerobot_config] at h1
  set c0 := if hasKey config "lerobot" then config
      else dictSet config "lerobot" (PyVal.obj []) with hc0
  split at h1
  case h_2 => simp at h1
  case h_3 => simp at h1
  case h_1 d hl0 =>
      set c1mid := dictSet c0 "lerobot" (PyVal.obj (dictUpdate d arm_config))
        with hc1mid
      set c2 := if hasKey c1mid "server" then c1mid
          else dictSet c1mid "server" (PyVal.obj []) with hc2
      split at h1
      case h_2 => simp at h1
      case h_3 => simp at h1
      case h_1 s hl1 =>
          simp only [Except.ok.injEq] at h1
          subst h1
          set R := dictSet c2 "server"
            (PyVal.obj (dictSet s "type" (PyVal.str "lerobot"))) with hR
          have hXlookup : dictLookup R "lerobot"
              = some (PyVal.obj (dictUpdate d arm_config)) := by
            rw [hR, dictLookup_dictSet_ne c2 "lerobot" "server" _ (by decide), hc2]
            by_cases hsrv : hasKey c1mid "server" = true
            · rw [if_pos hsrv, hc1mid, dictLookup_dictSet_self]
            · rw [if_neg hsrv,
                dictLookup_dictSet_ne c1mid "lerobot" "server" _ (by decide),
                hc1mid, dictLookup_dictSet_self]
          have hasR_lerobot : hasKey R "lerobot" = true := by
            rw [hasKey, hXlookup]; rfl
          have hupd : dictUpdate (dictUpdate d arm_config) arm_config
              = dictUpdate d arm_config :=
            dictUpdate_idem arm_config d hnd
          have hallL : allEqAt R "lerobot" (PyVal.obj (dictUpdate d arm_config)) := by
            rw [hR]
            apply allEqAt_dictSet_ne _ _ _ _ _ (by decide)
            rw [hc2]
            by_cases hsrv : hasKey c1mid "server" = true
            · rw [if_pos hsrv, hc1mid]
              exact allEqAt_dictSet_self _ _ _
            · rw [if_neg hsrv]
              apply allEqAt_dictSet_ne _ _ _ _ _ (by decide)
              rw [hc1mid]
              exact allEqAt_dictSet_self _ _ _
          have hsetL : dictSet R "lerobot" (PyVal.obj (dictUpdate d arm_config)) = R :=
            dictSet_eq_self _ _ _ hasR_lerobot hallL
          have hRserver : dictLookup R "server"
              = some (PyVal.obj (dictSet s "type" (PyVal.str "lerobot"))) := by
            rw [hR]; exact dictLookup_dictSet_self _ _ _
          have hasR_server : hasKey R "server" = true := by
            rw [hasKey, hRserver]; rfl
          have hallS : allEqAt R "server"
              (PyVal.obj (dictSet s "type" (PyVal.str "lerobot"))) := by
            rw [hR]; exact allEqAt_dictSet_self _ _ _
          have hsetS : dictSet R "server"
              (PyVal.obj (dictSet s "type" (PyVal.str "lerobot"))) = R :=
            dictSet_eq_self _ _ _ hasR_server hallS
          simp only [save_lerobot_config, hasR_lerobot, if_true, hXlookup, hupd,
            hsetL, hasR_server, hRserver, dictSet_dictSet_same, hsetS]

/-- Witness for C6 at a concrete config: the second save of the same
`arm_config` returns the persisted config of the first save unchanged. -/
theorem save_lerobot_config_idempotent_witness :
    save_lerobot_config
        [("lerobot", PyVal.obj [("leader_port", PyVal.str "/dev/ttyACM0")]),
         ("server", PyVal.obj [("type", PyVal.str "lerobot")])]
        [("leader_port", PyVal.str "/dev/ttyACM0")]
      = Except.ok
        [("lerobot", PyVal.obj [("leader_port", PyVal.str "/dev/ttyACM0")]),
         ("server", PyVal.obj [("type", PyVal.str "lerobot")])] :=
  save_lerobot_config_idempotent [] [("leader_port", PyVal.str "/dev/ttyACM0")]
    [("lerobot", PyVal.obj [("leader_port", PyVal.str "/dev/ttyACM0")]),
     ("server", PyVal.obj [("type", PyVal.str "lerobot")])] rfl rfl

/-! Claim theorem for the calibration-flag invariant. -/

/-- C7: in every loaded Session Configuration whose `lerobot` entry is a
dict `d`, a truthy calibration flag with a missing or falsy corresponding
port makes every consumer treat that arm as not configured:
`teleop_mode` and `recording_mode` take their not-calibrated error
branch, `inference_mode` takes its error branch for the follower arm and
never offers leader teleoperation for the leader arm, and
`check_calibration_success` never takes the success branch. -/
theorem flag_without_port_treated_unconfigured (config d : PyDict)
    (hl : pyGetD config "lerobot" (PyVal.obj []) = PyVal.obj d) :
    ((pyGetD d "leader_calibrated" (PyVal.bool false)).truthy = true →
      (pyGet d "leader_port").truthy = false →
      teleop_mode_gate config = Except.ok false ∧
      recording_mode_gate config = Except.ok false ∧
      inference_mode_leader_gate config = Except.ok false ∧
      (∀ sm : Bool, Msg.armsCalibratedSuccess ∉ check_calibration_success d sm))
    ∧ ((pyGetD d "follower_calibrated" (PyVal.bool false)).truthy = true →
      (pyGet d "follower_port").truthy = false →
      teleop_mode_gate config = Except.ok false ∧
      recording_mode_gate config = Except.ok false ∧
      inference_mode_follower_gate config = Except.ok false ∧
      (∀ sm : Bool, Msg.armsCalibratedSuccess ∉ check_calibration_success d sm)) := by
  constructor
  · intro _ hport
    refine ⟨?_, ?_, ?_, ?_⟩
    · unfold teleop_mode_gate
      rw [hl]
      simp [PyVal.truthy_pyAnd, hport]
    · unfold recording_mode_gate validate_lerobot_config
      rw [hl]
      simp [PyVal.truthy_pyAnd, hport]
    · unfold inference_mode_leader_gate validate_lerobot_config
      rw [hl]
      simp [PyVal.truthy_pyAnd, hport]
    · intro sm
      unfold check_calibration_success
      simp [PyVal.truthy_pyAnd, hport]
  · intro _ hport
    refine ⟨?_, ?_, ?_, ?_⟩
    · unfold teleop_mode_gate
      rw [hl]
      simp [PyVal.truthy_pyAnd, hport]
    · unfold recording_mode_gate validate_lerobot_config
      rw [hl]
      simp [PyVal.truthy_pyAnd, hport]
    · unfold inference_mode_follower_gate validate_lerobot_config
      rw [hl]
      simp [PyVal.truthy_pyAnd, hport]
    · intro sm
      unfold check_calibration_success
      simp [PyVal.truthy_pyAnd, hport]

/-- Witness for C7: a configuration whose `leader_calibrated` flag is
`True` but whose `leader_port` is absent fails every consumer gate. -/
theorem flag_without_port_treated_unconfigured_witness :
    teleop_mode_gate [("lerobot", PyVal.obj [("leader_calibrated", PyVal.bool true)])]
      = Except.ok false ∧
    recording_mode_gate [("lerobot", PyVal.obj [("leader_calibrated", PyVal.bool true)])]
      = Except.ok false ∧
    inference_mode_leader_gate
        [("lerobot", PyVal.obj [("leader_calibrated", PyVal.bool true)])]
      = Except.ok false ∧
    Msg.armsCalibratedSuccess ∉
      check_calibration_success [("leader_calibrated", PyVal.bool true)] false := by
  have h := (flag_without_port_treated_unconfigured
    [("lerobot", PyVal.obj [("leader_calibrated", PyVal.bool true)])]
    [("leader_calibrated", PyVal.bool true)] rfl).1 rfl rfl
  exact ⟨h.1, h.2.1, h.2.2.1, h.2.2.2 false⟩

end SoloServer
